import Mathlib

/-!
Verification of the pySAS task-invocation and argument-marshalling core.

The repository snapshot ships only the callers of the core (tutorial
notebooks), the ChangeLog and the package README; the core modules
themselves (sastask.py, parser.py, param.py, wrapper.py, odfcontrol.py)
are not part of the snapshot.  Every definition below is therefore
modelled from the specification of the core (data model in spec section 3,
component design in sections 4.1 to 4.6) and from the behaviour recorded
in the ChangeLog, as noted on each definition.
-/

namespace PySAS

/-- Modelled from the spec: the five process-wide settings recognized by the
Environment Scope Manager (verbosity level, calibration path,
calibration-index file, data-summary file, working directory); the concrete
modules that read them are missing from the snapshot. -/
inductive EnvKey
  | verbosity
  | ccfpath
  | ccf
  | odf
  | workdir
deriving DecidableEq, Repr

/-- The process-wide environment: one current value per recognized key. -/
def Env : Type := EnvKey → String

/-- Modelled from the spec: declared parameter types used by value coercion
in the Argument Normalizer; the schema reader module is missing from the
snapshot. -/
inductive ParamType
  | string
  | int
  | bool
  | real
deriving DecidableEq, Repr

/-- One declared parameter of a task schema: type, default (`none` stands
for no default, the absent-equivalent of a Python None default) and the
required marker. -/
structure ParamSpec where
  ptype : ParamType
  default : Option String
  required : Bool
deriving DecidableEq, Repr

/-- Modelled from the spec: a TaskDescriptor identifies one invocable unit
with its ordered parameter schema; the schema reader module is missing from
the snapshot. -/
inductive TaskKind
  | inProcess
  | nativeExecutable
deriving DecidableEq, Repr

structure TaskDescriptor where
  name : String
  kind : TaskKind
  parameterSchema : List (String × ParamSpec)
  openSchema : Bool
deriving DecidableEq, Repr

/-- Modelled from the spec: caller-supplied raw arguments are either a
mapping of name to value or a sequence of tokens (key=value strings and
bare flags). -/
inductive ArgumentSet
  | mapping (items : List (String × String))
  | sequence (tokens : List String)
deriving DecidableEq, Repr

/-- Errors of the Argument Normalizer, from the error taxonomy of the
spec. -/
inductive NormalizeError
  | UnknownParameter (name : String)
  | TypeMismatch (name : String) (expected : ParamType) (got : String)
  | MissingRequiredParameter (name : String)
deriving DecidableEq, Repr

/-- The normalized, order-preserving argument vector plus bare flags. -/
structure CanonicalInvocation where
  pairs : List (String × String)
  flags : List String
deriving DecidableEq, Repr

/-- A normalization outcome: either the distinguished early-exit subtype
carrying only the recognized flag, or a full canonical invocation. -/
inductive NormalizeOutput
  | earlyExit (flag : String)
  | canonical (ci : CanonicalInvocation)
deriving DecidableEq, Repr

/-- Splits a token at its first equals sign character. -/
def splitFirstEq : List Char → Option (List Char × List Char)
  | [] => none
  | c :: rest =>
    if c = '=' then some ([], rest)
    else (splitFirstEq rest).map (fun p => (c :: p.1, p.2))

/-- A key=value token becomes a named candidate; a token without an equals
sign is a bare flag. -/
def splitKV (tok : String) : Option (String × String) :=
  (splitFirstEq tok.toList).map (fun p => (String.mk p.1, String.mk p.2))

/-- Splits a token sequence into named candidates and bare flags, each
order-preserved. -/
def parseTokens : List String → List (String × String) × List String
  | [] => ([], [])
  | t :: rest =>
    let acc := parseTokens rest
    match splitKV t with
    | some kv => (kv :: acc.1, acc.2)
    | none => (acc.1, t :: acc.2)

/-- Disambiguates the three caller argument shapes into one candidate list
plus one bare-flag list (spec section 4.2 step 1). -/
def parseArgumentSet : ArgumentSet → List (String × String) × List String
  | .mapping items => (items, [])
  | .sequence toks => parseTokens toks

/-- Modelled from the spec and the ChangeLog of parser.py and sastask.py:
the execute-and-exit options (version, help, param, dialog, manpage). -/
def earlyExitFlags : List String :=
  ["-v", "--version", "-h", "--help", "-p", "--param", "-d", "--dialog",
   "-m", "--manpage"]

/-- Looks up a parameter name in the ordered schema of a task. -/
def lookupParam (td : TaskDescriptor) (n : String) : Option ParamSpec :=
  (td.parameterSchema.find? (fun p => p.1 = n)).map Prod.snd

/-- Is every character of the list a decimal digit. -/
def allDigits (cs : List Char) : Bool :=
  cs.all (fun c => c.isDigit)

/-- Value coercion check for a declared type; a coerced value keeps its
string form in the argument vector. -/
def coerceValue : ParamType → String → Option String
  | .string, v => some v
  | .int, v =>
    match v.toList with
    | [] => none
    | '-' :: rest => if rest ≠ [] ∧ allDigits rest then some v else none
    | cs => if allDigits cs then some v else none
  | .bool, v =>
    if v = "yes" ∨ v = "no" ∨ v = "true" ∨ v = "false" then some v else none
  | .real, v =>
    match v.toList with
    | [] => none
    | cs => if cs.all (fun c => c.isDigit ∨ c = '.' ∨ c = '-') then some v
            else none

/-- First supplied candidate whose name is not declared in the schema. -/
def findUnknown (td : TaskDescriptor) (cs : List (String × String)) :
    Option String :=
  (cs.find? (fun c => (lookupParam td c.1).isNone)).map Prod.fst

/-- The type error of one candidate, when its declared type rejects the
supplied value. -/
def candidateTypeError (td : TaskDescriptor) (c : String × String) :
    Option (String × ParamType × String) :=
  match lookupParam td c.1 with
  | none => none
  | some spec =>
    match coerceValue spec.ptype c.2 with
    | some _ => none
    | none => some (c.1, spec.ptype, c.2)

/-- First candidate with a type error, in caller order. -/
def findTypeError (td : TaskDescriptor) (cs : List (String × String)) :
    Option (String × ParamType × String) :=
  cs.findSome? (candidateTypeError td)

/-- Is the parameter name absent from the candidate list. -/
def notSupplied (cs : List (String × String)) (n : String) : Bool :=
  cs.all (fun c => !(c.1 == n))

/-- First schema parameter, in declared order, that is required, has no
supplied candidate and carries no default. -/
def findMissingRequired (td : TaskDescriptor)
    (cs : List (String × String)) : Option String :=
  (td.parameterSchema.find?
    (fun p => p.2.required && notSupplied cs p.1 && p.2.default.isNone)).map
    Prod.fst

/-- Parameters not supplied and carrying a default, injected with that
default in schema-declared order (spec section 4.2 step 4); a `none`
default is absent-equivalent and is not injected. -/
def injectedDefaults (td : TaskDescriptor)
    (cs : List (String × String)) : List (String × String) :=
  (td.parameterSchema.filter
    (fun p => notSupplied cs p.1 && p.2.default.isSome)).map
    (fun p => (p.1, p.2.default.getD ""))

/-- Modelled from the spec: the Argument Normalizer on an already
disambiguated candidate list and flag list.  A recognized early-exit bare
flag short-circuits normalization (spec section 4.2 step 5, ChangeLog
execute-and-exit options); then names are validated, then values are
coerced, then required parameters are checked, and finally defaults are
injected ahead of the supplied candidates in caller order. -/
def normalizeParsed (td : TaskDescriptor) (cs : List (String × String))
    (fs : List String) : Except NormalizeError NormalizeOutput :=
  match fs.find? (fun f => decide (f ∈ earlyExitFlags)) with
  | some f => .ok (.earlyExit f)
  | none =>
    match (if td.openSchema then none else findUnknown td cs) with
    | some n => .error (.UnknownParameter n)
    | none =>
      match findTypeError td cs with
      | some e => .error (.TypeMismatch e.1 e.2.1 e.2.2)
      | none =>
        match findMissingRequired td cs with
        | some n => .error (.MissingRequiredParameter n)
        | none => .ok (.canonical ⟨injectedDefaults td cs ++ cs, fs⟩)

/-- Modelled from the spec: the Argument Normalizer contract
`normalize(task_descriptor, argument_set)`; the parser and sastask modules
are missing from the snapshot. -/
def normalize (td : TaskDescriptor) (as : ArgumentSet) :
    Except NormalizeError NormalizeOutput :=
  normalizeParsed td (parseArgumentSet as).1 (parseArgumentSet as).2

/-- Point update of the process-wide environment. -/
def updateEnv (e : Env) (k : EnvKey) (v : String) : Env :=
  fun k' => if k' = k then v else e k'

/-- Applies a list of overrides to the environment, in order. -/
def applyOverrides (e : Env) (ov : List (EnvKey × String)) : Env :=
  ov.foldl (fun a p => updateEnv a p.1 p.2) e

/-- Modelled from the spec: the stack-discipline record captured at scope
entry, holding the previous value of exactly the overridden keys; the
sastask module holding the concrete environment handling is missing from
the snapshot. -/
structure EnvironmentScope where
  saved : List (EnvKey × String)

/-- Snapshots the current values of exactly the keys present in the
overrides (spec section 4.3). -/
def enterScope (e : Env) (ov : List (EnvKey × String)) : EnvironmentScope :=
  ⟨ov.map (fun p => (p.1, e p.1))⟩

/-- Restores every snapshotted value unconditionally, on top of whatever
environment the invocation left behind (spec section 4.3). -/
def exitScope (s : EnvironmentScope) (e : Env) : Env :=
  s.saved.foldl (fun a p => updateEnv a p.1 p.2) e

/-- Modelled from the spec and the ChangeLog of sastask.py: the override
names recognized by the Environment Scope Manager, one per process-wide
setting (verbosity, calibration path, calibration-index file, data-summary
file, working directory). -/
def envKeyOfName (n : String) : Option EnvKey :=
  if n = "verbosity" then some .verbosity
  else if n = "ccfpath" then some .ccfpath
  else if n = "ccf" then some .ccf
  else if n = "odf" then some .odf
  else if n = "workdir" then some .workdir
  else none

/-- Partitions the named parameters of a canonical invocation into
recognized environment overrides and task-specific parameters, each
order-preserved (spec section 4.4 step 3). -/
def partitionOverrides (pairs : List (String × String)) :
    List (EnvKey × String) × List (String × String) :=
  pairs.foldr
    (fun c acc =>
      match envKeyOfName c.1 with
      | some k => ((k, c.2) :: acc.1, acc.2)
      | none => (acc.1, c :: acc.2))
    ([], [])

/-- The error wrapped around an exception of an invocation strategy, from
the error taxonomy of the spec. -/
structure TaskError where
  task : String
  cause : String
deriving DecidableEq, Repr

/-- Modelled from the spec: an Invocation Strategy receives the task, the
task-specific parameters and the scoped environment, and either returns a
value or raises; an in-process task may also have mutated the process-wide
environment, which the strategy reports back in both outcomes. -/
def Strategy : Type :=
  TaskDescriptor → List (String × String) → Env →
    Except TaskError String × Env

/-- Outcome status of one invocation (spec section 3). -/
inductive Status
  | SUCCESS
  | FAILURE
  | EARLY_EXIT
deriving DecidableEq, Repr

/-- Modelled from the spec: the outcome record returned to the caller of
the Task Dispatcher. -/
structure InvocationResult where
  status : Status
  canonical : Option CanonicalInvocation
  earlyFlag : Option String
  errorRecorded : Option TaskError
  returnValue : Option String
deriving DecidableEq, Repr

/-- An error escaping the Task Dispatcher: a normalization failure, which
is never recovered locally, or a strategy exception re-raised in strict
mode. -/
inductive DispatchError
  | normError (e : NormalizeError)
  | taskError (e : TaskError)
deriving DecidableEq, Repr

/-- Observable side effects of one dispatch: how many environment scopes
were entered, how many strategy calls were made, and which environment
mutations were applied. -/
structure DispatchTrace where
  scopesEntered : Nat
  strategyCalls : Nat
  envMutations : List (EnvKey × String)
deriving DecidableEq, Repr

/-- The environment after the scoped strategy step: the scope entered on
the recognized overrides is exited on top of whatever environment the
strategy left, restoring the snapshotted values. -/
def scopedEnvAfter (td : TaskDescriptor) (ci : CanonicalInvocation)
    (strategy : Strategy) (env : Env) : Env :=
  exitScope (enterScope env (partitionOverrides ci.pairs).1)
    (strategy td (partitionOverrides ci.pairs).2
      (applyOverrides env (partitionOverrides ci.pairs).1)).2

/-- The scoped strategy step of the Task Dispatcher (spec section 4.4
steps 3 to 8): enter the scope, run the strategy, exit the scope on every
path, and either wrap a strategy exception into a FAILURE result
(non-strict mode) or re-raise it (strict mode). -/
def runWithScope (td : TaskDescriptor) (ci : CanonicalInvocation)
    (strict : Bool) (strategy : Strategy) (env : Env) :
    Except DispatchError InvocationResult × Env × DispatchTrace :=
  (match (strategy td (partitionOverrides ci.pairs).2
      (applyOverrides env (partitionOverrides ci.pairs).1)).1 with
   | .ok v => .ok ⟨.SUCCESS, some ci, none, none, some v⟩
   | .error e =>
     if strict then .error (.taskError e)
     else .ok ⟨.FAILURE, some ci, none, some e, none⟩,
   scopedEnvAfter td ci strategy env,
   ⟨1, 1, (partitionOverrides ci.pairs).1⟩)

/-- Modelled from the spec: the Task Dispatcher contract
`invoke(task_name, argument_set, execution_context)`; the sastask module is
missing from the snapshot.  Normalization failures surface immediately
with no scope entered; an early-exit canonical invocation returns
EARLY_EXIT without touching the environment or calling any strategy; a
full canonical invocation runs the scoped strategy step. -/
def invoke (td : TaskDescriptor) (as : ArgumentSet) (strict : Bool)
    (strategy : Strategy) (env : Env) :
    Except DispatchError InvocationResult × Env × DispatchTrace :=
  match normalize td as with
  | .error e => (.error (.normError e), env, ⟨0, 0, []⟩)
  | .ok (.earlyExit f) =>
    (.ok ⟨.EARLY_EXIT, none, some f, none, none⟩, env, ⟨0, 0, []⟩)
  | .ok (.canonical ci) => runWithScope td ci strict strategy env

/-- Modelled from the spec: the discovered-file mapping of one observation
workspace, from logical product name to discovered file paths; the
odfcontrol module is missing from the snapshot. -/
structure ObservationWorkspace where
  files : List (String × List String)
deriving DecidableEq, Repr

/-- The discovered files recorded under one logical product name. -/
def lookupFiles (ws : ObservationWorkspace) (key : String) : List String :=
  match ws.files.find? (fun p => p.1 = key) with
  | some p => p.2
  | none => []

/-- Records the output files a pipeline run produced for one logical
product name. -/
def recordFiles (ws : ObservationWorkspace) (key : String)
    (outs : List String) : ObservationWorkspace :=
  ⟨(key, outs) :: ws.files.filter (fun p => !(p.1 == key))⟩

/-- Modelled from the spec and the run_analysis docstring quoted in the
notebooks: the rerun-avoidance step of the Observation-Session Facade.
It checks whether output files for the selected task are already present
in the discovered-file mapping; if they are and no rerun is forced, the
task is skipped with zero Task Dispatcher calls, else the dispatcher is
called once and the produced outputs are recorded.  The decision is a
file-existence check only; `produced` gives the outputs a run of the task
would leave on disk. -/
def run_analysis (produced : String → List String)
    (ws : ObservationWorkspace) (task : String) (forceRerun : Bool) :
    Nat × ObservationWorkspace :=
  if forceRerun = false ∧ lookupFiles ws task ≠ [] then (0, ws)
  else (1, recordFiles ws task (produced task))

/-- A registry resolving a task name to its descriptor, standing for the
Parameter Schema Reader lookup. -/
def Registry : Type := String → TaskDescriptor

/-- Modelled from the spec and the ChangeLog of sastask.py: MyTask holds
the task name and the caller arguments; its run method dispatches the
invocation. -/
structure MyTask where
  taskname : String
  inargs : ArgumentSet

/-- The run method of MyTask: resolve the descriptor and dispatch. -/
def MyTask.run (reg : Registry) (strict : Bool) (strategy : Strategy)
    (env : Env) (t : MyTask) :
    Except DispatchError InvocationResult × Env × DispatchTrace :=
  invoke (reg t.taskname) t.inargs strict strategy env

/-- Modelled from the ChangeLog of sastask.py: the method runtask has been
kept as a placeholder for legacy code and just calls run. -/
def MyTask.runtask (reg : Registry) (strict : Bool) (strategy : Strategy)
    (env : Env) (t : MyTask) :
    Except DispatchError InvocationResult × Env × DispatchTrace :=
  MyTask.run reg strict strategy env t

/-- Modelled from the ChangeLog of wrapper.py: the deprecated Wrapper
class, whose only function is to create a MyTask object. -/
structure Wrapper where
  taskname : String
  inargs : ArgumentSet

/-- The MyTask object a Wrapper creates. -/
def Wrapper.toMyTask (w : Wrapper) : MyTask :=
  ⟨w.taskname, w.inargs⟩

/-- The run method of the deprecated Wrapper: delegate to the created
MyTask. -/
def Wrapper.run (reg : Registry) (strict : Bool) (strategy : Strategy)
    (env : Env) (w : Wrapper) :
    Except DispatchError InvocationResult × Env × DispatchTrace :=
  MyTask.run reg strict strategy env (Wrapper.toMyTask w)

/-- A concrete environment used by the witnesses below. -/
def env0 : Env := fun k =>
  match k with
  | .verbosity => "4"
  | .ccfpath => "/calibration"
  | .ccf => "ccf.cif"
  | .odf => "0104860501SUM.SAS"
  | .workdir => "/work"

/-- A concrete in-process task whose schema declares a verbosity
override parameter. -/
def tdC3 : TaskDescriptor :=
  ⟨"mytask", .inProcess, [("verbosity", ⟨.int, none, false⟩)], false⟩

/-- The argument set of the strategy-failure scenario. -/
def asC3 : ArgumentSet := .mapping [("verbosity", "9")]

/-- The canonical invocation of the strategy-failure scenario. -/
def ci3 : CanonicalInvocation := ⟨[("verbosity", "9")], []⟩

/-- A strategy that always raises, leaving the scoped environment as it
found it. -/
def strategyFail : Strategy :=
  fun _ _ e => (.error ⟨"mytask", "boom"⟩, e)

/-- A strategy that always succeeds. -/
def strategyOk : Strategy :=
  fun _ _ e => (.ok "done", e)

/-- The concrete evselect-like schema of the default-None scenario: table
is required with no default, expression is optional with a None
(absent-equivalent) default. -/
def tdC8 : TaskDescriptor :=
  ⟨"evselect", .nativeExecutable,
   [("table", ⟨.string, none, true⟩), ("expression", ⟨.string, none, false⟩)],
   false⟩

/-- The same schema with a real default on expression, to contrast
default injection with the absent-equivalent case. -/
def tdC8dflt : TaskDescriptor :=
  ⟨"evselect", .nativeExecutable,
   [("table", ⟨.string, none, true⟩),
    ("expression", ⟨.string, some "PI>100", false⟩)],
   false⟩

/-- A closed one-parameter schema used for the unknown-parameter claim. -/
def tdC4 : TaskDescriptor :=
  ⟨"tabgtigen", .nativeExecutable, [("table", ⟨.string, none, false⟩)],
   false⟩

/-- A closed schema requiring spectrumset with no default. -/
def tdC5 : TaskDescriptor :=
  ⟨"especget", .nativeExecutable,
   [("spectrumset", ⟨.string, none, true⟩)], false⟩

end PySAS

namespace PySAS

theorem foldl_update_not_mem (l : List (EnvKey × String)) :
    ∀ (e : Env) (k : EnvKey), k ∉ l.map Prod.fst →
      l.foldl (fun a p => updateEnv a p.1 p.2) e k = e k := by
  induction l with
  | nil => intro e k _; rfl
  | cons p t ih =>
    intro e k h
    simp only [List.map_cons, List.mem_cons, not_or] at h
    simp only [List.foldl_cons]
    rw [ih _ k h.2]
    simp [updateEnv, h.1]

theorem foldl_update_const (l : List (EnvKey × String)) (v : String) :
    ∀ (e : Env) (k : EnvKey), (∀ p ∈ l, p.1 = k → p.2 = v) →
      k ∈ l.map Prod.fst →
      l.foldl (fun a p => updateEnv a p.1 p.2) e k = v := by
  induction l with
  | nil => intro e k _ hmem; simp at hmem
  | cons p t ih =>
    intro e k hall hmem
    simp only [List.foldl_cons]
    by_cases hk : k ∈ t.map Prod.fst
    · exact ih _ k (fun q hq hqk => hall q (List.mem_cons_of_mem _ hq) hqk) hk
    · rw [foldl_update_not_mem t _ k hk]
      have hkp : k = p.1 := by
        simp only [List.map_cons, List.mem_cons] at hmem
        tauto
      simp only [updateEnv, if_pos hkp]
      exact hall p (List.mem_cons_self _ _) hkp.symm

theorem exit_enter_restores (env : Env) (ov : List (EnvKey × String))
    (env'' : Env) (k : EnvKey) (h : k ∈ ov.map Prod.fst) :
    exitScope (enterScope env ov) env'' k = env k := by
  unfold exitScope enterScope
  apply foldl_update_const
  · intro p hp hpk
    simp only [List.mem_map] at hp
    obtain ⟨q, _, rfl⟩ := hp
    simp only at hpk
    rw [hpk]
  · simpa [List.map_map, Function.comp] using h

end PySAS

namespace PySAS

/-- C1: for every set of environment overrides applied via enter, the
matching exit restores every overridden key to its pre-enter value on
every exit path: the first part restores over an arbitrary intermediate
environment (covering normal return and exception alike), the second part
shows the Task Dispatcher leaves every overridden key at its pre-enter
value for an arbitrary invocation strategy, raising or not. -/
theorem env_scope_exit_restores_overrides :
    (∀ (env : Env) (ov : List (EnvKey × String)) (env'' : Env) (k : EnvKey),
      k ∈ ov.map Prod.fst → exitScope (enterScope env ov) env'' k = env k)
    ∧
    (∀ (td : TaskDescriptor) (as : ArgumentSet) (strict : Bool)
      (strategy : Strategy) (env : Env) (ci : CanonicalInvocation)
      (k : EnvKey),
      normalize td as = .ok (.canonical ci) →
      k ∈ ((partitionOverrides ci.pairs).1).map Prod.fst →
      (invoke td as strict strategy env).2.1 k = env k) := by
  constructor
  · exact exit_enter_restores
  · intro td as strict strategy env ci k hnorm hmem
    simp only [invoke, hnorm]
    show scopedEnvAfter td ci strategy env k = env k
    unfold scopedEnvAfter
    exact exit_enter_restores env _ _ k hmem

/-- Witness for C1 at a concrete override of the verbosity level, with a
raising strategy between enter and exit. -/
theorem env_scope_exit_restores_overrides_witness :
    EnvKey.verbosity ∈ ([((EnvKey.verbosity : EnvKey), "9")].map Prod.fst) ∧
    exitScope (enterScope env0 [(EnvKey.verbosity, "9")])
      (applyOverrides env0 [(EnvKey.verbosity, "9")]) EnvKey.verbosity =
      env0 EnvKey.verbosity ∧
    (invoke tdC3 asC3 false strategyFail env0).2.1 EnvKey.verbosity =
      env0 EnvKey.verbosity :=
  ⟨by decide,
   env_scope_exit_restores_overrides.1 env0 [(EnvKey.verbosity, "9")]
     (applyOverrides env0 [(EnvKey.verbosity, "9")]) EnvKey.verbosity
     (by decide),
   env_scope_exit_restores_overrides.2 tdC3 asC3 false strategyFail env0
     ci3 EnvKey.verbosity rfl (by decide)⟩

/-- C2: an argument set containing a recognized early-exit bare flag makes
the Task Dispatcher return an EARLY_EXIT result without entering any
environment scope, without calling any invocation strategy, with the
environment unchanged and with no environment mutation recorded. -/
theorem early_exit_flag_bypasses_scope_and_strategy :
    ∀ (td : TaskDescriptor) (as : ArgumentSet) (strict : Bool)
      (strategy : Strategy) (env : Env) (f : String),
      f ∈ (parseArgumentSet as).2 → f ∈ earlyExitFlags →
      ∃ f', f' ∈ earlyExitFlags ∧
        invoke td as strict strategy env =
          (.ok ⟨.EARLY_EXIT, none, some f', none, none⟩, env, ⟨0, 0, []⟩) := by
  intro td as strict strategy env f hf hrec
  cases hfind : (parseArgumentSet as).2.find?
      (fun f => decide (f ∈ earlyExitFlags)) with
  | none =>
    exfalso
    have := List.find?_eq_none.mp hfind f hf
    simp at this
    exact this hrec
  | some f' =>
    have hpred := List.find?_some hfind
    simp only [decide_eq_true_eq] at hpred
    refine ⟨f', hpred, ?_⟩
    have hnorm : normalize td as = .ok (.earlyExit f') := by
      simp only [normalize, normalizeParsed, hfind]
    simp only [invoke, hnorm]

/-- Witness for C2 at the help flag. -/
theorem early_exit_flag_bypasses_scope_and_strategy_witness :
    "-h" ∈ (parseArgumentSet (ArgumentSet.sequence ["-h"])).2 ∧
    "-h" ∈ earlyExitFlags ∧
    ∃ f', f' ∈ earlyExitFlags ∧
      invoke tdC8 (ArgumentSet.sequence ["-h"]) false strategyOk env0 =
        (.ok ⟨.EARLY_EXIT, none, some f', none, none⟩, env0, ⟨0, 0, []⟩) :=
  ⟨by decide, by decide,
   early_exit_flag_bypasses_scope_and_strategy tdC8
     (ArgumentSet.sequence ["-h"]) false strategyOk env0 "-h"
     (by decide) (by decide)⟩

end PySAS

namespace PySAS

/-- C3: when the invocation strategy raises, the Task Dispatcher in
non-strict mode returns a FAILURE result with the original error
recorded, in strict mode re-raises the exception, and in both modes the
environment scope is still exited, restoring every overridden key. -/
theorem strategy_exception_failure_and_strict :
    ∀ (td : TaskDescriptor) (as : ArgumentSet) (strategy : Strategy)
      (env env2 : Env) (ci : CanonicalInvocation) (e : TaskError),
      normalize td as = .ok (.canonical ci) →
      strategy td (partitionOverrides ci.pairs).2
        (applyOverrides env (partitionOverrides ci.pairs).1) =
        (.error e, env2) →
      invoke td as false strategy env =
        (.ok ⟨.FAILURE, some ci, none, some e, none⟩,
         scopedEnvAfter td ci strategy env,
         ⟨1, 1, (partitionOverrides ci.pairs).1⟩)
      ∧ invoke td as true strategy env =
        (.error (.taskError e),
         scopedEnvAfter td ci strategy env,
         ⟨1, 1, (partitionOverrides ci.pairs).1⟩)
      ∧ ∀ k, k ∈ ((partitionOverrides ci.pairs).1).map Prod.fst →
          scopedEnvAfter td ci strategy env k = env k := by
  intro td as strategy env env2 ci e hnorm hstrat
  refine ⟨?_, ?_, ?_⟩
  · simp [invoke, hnorm, runWithScope, hstrat]
  · simp [invoke, hnorm, runWithScope, hstrat]
  · intro k hk
    unfold scopedEnvAfter
    exact exit_enter_restores env _ _ k hk

/-- Witness for C3: a verbosity override of 9 is entered, the strategy
raises, and in non-strict mode the result is FAILURE with the error
recorded while the prior verbosity of 4 is restored. -/
theorem strategy_exception_failure_and_strict_witness :
    normalize tdC3 asC3 = .ok (.canonical ci3) ∧
    invoke tdC3 asC3 false strategyFail env0 =
      (.ok ⟨.FAILURE, some ci3, none, some ⟨"mytask", "boom"⟩, none⟩,
       scopedEnvAfter tdC3 ci3 strategyFail env0,
       ⟨1, 1, [(EnvKey.verbosity, "9")]⟩) ∧
    invoke tdC3 asC3 true strategyFail env0 =
      (.error (.taskError ⟨"mytask", "boom"⟩),
       scopedEnvAfter tdC3 ci3 strategyFail env0,
       ⟨1, 1, [(EnvKey.verbosity, "9")]⟩) ∧
    scopedEnvAfter tdC3 ci3 strategyFail env0 EnvKey.verbosity = "4" := by
  have h := strategy_exception_failure_and_strict tdC3 asC3 strategyFail
    env0 (applyOverrides env0 [(EnvKey.verbosity, "9")]) ci3
    ⟨"mytask", "boom"⟩ rfl rfl
  exact ⟨rfl, h.1, h.2.1, h.2.2 EnvKey.verbosity (by decide)⟩

end PySAS

namespace PySAS

/-- Counterexample to C4 as stated: against the closed one-parameter
schema of tabgtigen, the argument set with the help flag and the unknown
parameter bogus does not fail with UnknownParameter, because the
recognized early-exit bare flag short-circuits normalization first. -/
theorem unknown_parameter_claim_counterexample :
    tdC4.openSchema = false ∧
    "bogus" ∈ ((parseArgumentSet
      (ArgumentSet.sequence ["-h", "bogus=1"])).1).map Prod.fst ∧
    lookupParam tdC4 "bogus" = none ∧
    normalize tdC4 (ArgumentSet.sequence ["-h", "bogus=1"]) =
      .ok (.earlyExit "-h") ∧
    normalize tdC4 (ArgumentSet.sequence ["-h", "bogus=1"]) ≠
      .error (.UnknownParameter "bogus") := by
  refine ⟨rfl, by decide, rfl, rfl, ?_⟩
  intro h
  have h2 : (Except.ok (NormalizeOutput.earlyExit "-h") :
      Except NormalizeError NormalizeOutput) =
      Except.error (NormalizeError.UnknownParameter "bogus") :=
    (show normalize tdC4 (ArgumentSet.sequence ["-h", "bogus=1"]) =
      .ok (.earlyExit "-h") from rfl).symm.trans h
  exact Except.noConfusion h2

/-- C4 amended: against a schema not marked open, an argument set that
contains a named parameter absent from the schema and no recognized
early-exit bare flag fails with UnknownParameter naming an absent
parameter; the unknown name is never silently accepted. -/
theorem unknown_parameter_never_accepted :
    ∀ (td : TaskDescriptor) (as : ArgumentSet) (name : String),
      td.openSchema = false →
      (∀ f ∈ (parseArgumentSet as).2, f ∉ earlyExitFlags) →
      name ∈ ((parseArgumentSet as).1).map Prod.fst →
      lookupParam td name = none →
      ∃ m, m ∈ ((parseArgumentSet as).1).map Prod.fst ∧
        lookupParam td m = none ∧
        normalize td as = .error (.UnknownParameter m) := by
  intro td as name hopen hflags hname hlookup
  have hearly : (parseArgumentSet as).2.find?
      (fun f => decide (f ∈ earlyExitFlags)) = none := by
    apply List.find?_eq_none.mpr
    intro x hx
    simp only [decide_eq_true_eq]
    exact hflags x hx
  obtain ⟨c, hcmem, hcname⟩ := List.mem_map.mp hname
  cases hfind : (parseArgumentSet as).1.find?
      (fun c => (lookupParam td c.1).isNone) with
  | none =>
    exfalso
    have := List.find?_eq_none.mp hfind c hcmem
    rw [hcname, hlookup] at this
    simp at this
  | some c' =>
    have hpred := List.find?_some hfind
    have hcmem' := List.mem_of_find?_eq_some hfind
    rw [Option.isNone_iff_eq_none] at hpred
    refine ⟨c'.1, List.mem_map.mpr ⟨c', hcmem', rfl⟩, hpred, ?_⟩
    have hunk : findUnknown td (parseArgumentSet as).1 = some c'.1 := by
      simp only [findUnknown, hfind]
      rfl
    simp only [normalize, normalizeParsed, hearly, hopen, if_false, hunk,
      Bool.false_eq_true]

/-- Witness for the amended C4 at the unknown parameter bogus. -/
theorem unknown_parameter_never_accepted_witness :
    lookupParam tdC4 "bogus" = none ∧
    ∃ m, m ∈ ((parseArgumentSet
        (ArgumentSet.sequence ["bogus=1"])).1).map Prod.fst ∧
      lookupParam tdC4 m = none ∧
      normalize tdC4 (ArgumentSet.sequence ["bogus=1"]) =
        .error (.UnknownParameter m) :=
  ⟨rfl,
   unknown_parameter_never_accepted tdC4 (ArgumentSet.sequence ["bogus=1"])
     "bogus" rfl (by decide) (by decide) rfl⟩

end PySAS

namespace PySAS

/-- Counterexample to C5 as stated: the especget-like schema requires
spectrumset with no default and spectrumset has no candidate, yet the
argument set supplying the unknown parameter bogus does not fail with
MissingRequiredParameter, because name validation fails first with
UnknownParameter. -/
theorem missing_required_claim_counterexample :
    lookupParam tdC5 "spectrumset" = some ⟨.string, none, true⟩ ∧
    notSupplied ((parseArgumentSet
      (ArgumentSet.sequence ["bogus=1"])).1) "spectrumset" = true ∧
    normalize tdC5 (ArgumentSet.sequence ["bogus=1"]) =
      .error (.UnknownParameter "bogus") ∧
    normalize tdC5 (ArgumentSet.sequence ["bogus=1"]) ≠
      .error (.MissingRequiredParameter "spectrumset") := by
  refine ⟨rfl, rfl, rfl, ?_⟩
  intro h
  have h2 : (Except.error (NormalizeError.UnknownParameter "bogus") :
      Except NormalizeError NormalizeOutput) =
      Except.error (NormalizeError.MissingRequiredParameter "spectrumset") :=
    (show normalize tdC5 (ArgumentSet.sequence ["bogus=1"]) =
      .error (.UnknownParameter "bogus") from rfl).symm.trans h
  have h3 := Except.error.inj h2
  exact NormalizeError.noConfusion h3

/-- C5 amended: when the argument set contains no early-exit bare flag
and normalization does not first fail on an unknown or ill-typed supplied
parameter, a schema parameter that is required, unsupplied and without
default makes normalize fail with MissingRequiredParameter naming such a
parameter, and the Task Dispatcher then surfaces the failure with no
environment scope entered, no strategy call and an unchanged
environment. -/
theorem missing_required_parameter_fails :
    ∀ (td : TaskDescriptor) (as : ArgumentSet) (p : String)
      (ps : ParamSpec) (strict : Bool) (strategy : Strategy) (env : Env),
      (∀ f ∈ (parseArgumentSet as).2, f ∉ earlyExitFlags) →
      (if td.openSchema then none
       else findUnknown td (parseArgumentSet as).1) = none →
      findTypeError td (parseArgumentSet as).1 = none →
      (p, ps) ∈ td.parameterSchema →
      ps.required = true →
      ps.default = none →
      notSupplied (parseArgumentSet as).1 p = true →
      ∃ q qs, (q, qs) ∈ td.parameterSchema ∧ qs.required = true ∧
        qs.default = none ∧ notSupplied (parseArgumentSet as).1 q = true ∧
        normalize td as = .error (.MissingRequiredParameter q) ∧
        invoke td as strict strategy env =
          (.error (.normError (.MissingRequiredParameter q)), env,
           ⟨0, 0, []⟩) := by
  intro td as p ps strict strategy env hflags hunknown htype hmem hreq
    hdflt hnotsup
  have hearly : (parseArgumentSet as).2.find?
      (fun f => decide (f ∈ earlyExitFlags)) = none := by
    apply List.find?_eq_none.mpr
    intro x hx
    simp only [decide_eq_true_eq]
    exact hflags x hx
  cases hfind : td.parameterSchema.find?
      (fun pr => pr.2.required && notSupplied (parseArgumentSet as).1 pr.1
        && pr.2.default.isNone) with
  | none =>
    exfalso
    have := List.find?_eq_none.mp hfind (p, ps) hmem
    simp only [Bool.and_eq_true, Bool.not_eq_true] at this
    exact this ⟨⟨hreq, hnotsup⟩, by simp [hdflt]⟩
  | some pr =>
    have hpred := List.find?_some hfind
    have hprmem := List.mem_of_find?_eq_some hfind
    simp only [Bool.and_eq_true, Option.isNone_iff_eq_none] at hpred
    have hmiss : findMissingRequired td (parseArgumentSet as).1 =
        some pr.1 := by
      simp only [findMissingRequired, hfind]
      rfl
    have hnorm : normalize td as =
        .error (.MissingRequiredParameter pr.1) := by
      simp only [normalize, normalizeParsed, hearly, hunknown, htype, hmiss]
    refine ⟨pr.1, pr.2, by simpa using hprmem, hpred.1.1, hpred.2,
      hpred.1.2, hnorm, ?_⟩
    simp only [invoke, hnorm]

/-- Witness for the amended C5: the spectrumset scenario itself, with the
empty argument set. -/
theorem missing_required_parameter_fails_witness :
    normalize tdC5 (ArgumentSet.sequence []) =
      .error (.MissingRequiredParameter "spectrumset") ∧
    ∃ q qs, (q, qs) ∈ tdC5.parameterSchema ∧ qs.required = true ∧
      qs.default = none ∧
      notSupplied (parseArgumentSet (ArgumentSet.sequence [])).1 q = true ∧
      normalize tdC5 (ArgumentSet.sequence []) =
        .error (.MissingRequiredParameter q) ∧
      invoke tdC5 (ArgumentSet.sequence []) false strategyOk env0 =
        (.error (.normError (.MissingRequiredParameter q)), env0,
         ⟨0, 0, []⟩) :=
  ⟨rfl,
   missing_required_parameter_fails tdC5 (ArgumentSet.sequence [])
     "spectrumset" ⟨.string, none, true⟩ false strategyOk env0
     (by decide) rfl rfl (by decide) rfl rfl rfl⟩

end PySAS

namespace PySAS

/-- C6: normalize is deterministic: two calls on identical inputs produce
canonical invocations with identical named pairs, in identical order, and
identical bare flags. -/
theorem normalize_deterministic :
    ∀ (td : TaskDescriptor) (as1 as2 : ArgumentSet)
      (ci1 ci2 : CanonicalInvocation),
      as1 = as2 →
      normalize td as1 = .ok (.canonical ci1) →
      normalize td as2 = .ok (.canonical ci2) →
      ci1.pairs = ci2.pairs ∧ ci1.flags = ci2.flags := by
  intro td as1 as2 ci1 ci2 heq h1 h2
  subst heq
  rw [h1] at h2
  have h3 := NormalizeOutput.canonical.inj (Except.ok.inj h2)
  rw [h3]
  exact ⟨rfl, rfl⟩

/-- Witness for C6 at the evselect-like schema and a concrete argument
set given twice. -/
theorem normalize_deterministic_witness :
    (ArgumentSet.sequence ["table=evt.fits"] =
      ArgumentSet.sequence ["table=evt.fits"]) ∧
    normalize tdC8 (ArgumentSet.sequence ["table=evt.fits"]) =
      .ok (.canonical ⟨[("table", "evt.fits")], []⟩) ∧
    ([(("table" : String), ("evt.fits" : String))] =
      [("table", "evt.fits")] ∧ ([] : List String) = []) :=
  ⟨rfl, rfl,
   normalize_deterministic tdC8 (ArgumentSet.sequence ["table=evt.fits"])
     (ArgumentSet.sequence ["table=evt.fits"])
     ⟨[("table", "evt.fits")], []⟩ ⟨[("table", "evt.fits")], []⟩
     rfl rfl rfl⟩

/-- C7: for every schema, the sequence form a=1, b=2 and the equivalent
mapping form normalize to the same canonical invocation. -/
theorem argument_shape_round_trip :
    ∀ td : TaskDescriptor,
      normalize td (.mapping [("a", "1"), ("b", "2")]) =
        normalize td (.sequence ["a=1", "b=2"]) := by
  intro td
  have h1 : parseArgumentSet (.mapping [("a", "1"), ("b", "2")]) =
      ([("a", "1"), ("b", "2")], []) := rfl
  have h2 : parseArgumentSet (.sequence ["a=1", "b=2"]) =
      ([("a", "1"), ("b", "2")], []) := by rfl
  rw [normalize, normalize, h1, h2]

/-- C8: against the evselect-like schema with table required and
expression carrying the absent-equivalent None default, the argument set
table=evt.fits normalizes to exactly the pair list with table alone, the
expression parameter being omitted; with a real default on expression the
default is injected ahead of the supplied parameter in schema order. -/
theorem default_none_omitted :
    normalize tdC8 (ArgumentSet.sequence ["table=evt.fits"]) =
      .ok (.canonical ⟨[("table", "evt.fits")], []⟩) ∧
    normalize tdC8dflt (ArgumentSet.sequence ["table=evt.fits"]) =
      .ok (.canonical ⟨[("expression", "PI>100"), ("table", "evt.fits")],
        []⟩) :=
  ⟨rfl, rfl⟩

end PySAS

namespace PySAS

theorem lookupFiles_recordFiles (ws : ObservationWorkspace) (task : String)
    (outs : List String) :
    lookupFiles (recordFiles ws task outs) task = outs := by
  simp only [lookupFiles, recordFiles]
  rw [List.find?_cons_of_pos]
  simp

/-- C9: with force_rerun off, a pipeline step whose expected output files
are already present in the discovered-file mapping performs zero Task
Dispatcher calls and leaves the workspace untouched; and after any first
step that leaves output files behind, a repeated step performs zero
calls.  The skip decision reads only the existence of the discovered
files. -/
theorem pipeline_rerun_skipped :
    ∀ (produced : String → List String) (ws : ObservationWorkspace)
      (task : String),
      (lookupFiles ws task ≠ [] →
        run_analysis produced ws task false = (0, ws)) ∧
      (produced task ≠ [] →
        (run_analysis produced
          ((run_analysis produced ws task false).2) task false).1 = 0) := by
  intro produced ws task
  constructor
  · intro h
    simp only [run_analysis]
    rw [if_pos (⟨trivial, h⟩ : True ∧ lookupFiles ws task ≠ [])]
  · intro hp
    by_cases hl : lookupFiles ws task ≠ []
    · have hskip : run_analysis produced ws task false = (0, ws) := by
        simp only [run_analysis]
        rw [if_pos (⟨trivial, hl⟩ : True ∧ lookupFiles ws task ≠ [])]
      rw [hskip]
      simp only [hskip]
    · push_neg at hl
      have hrun : run_analysis produced ws task false =
          (1, recordFiles ws task (produced task)) := by
        simp only [run_analysis]
        rw [if_neg (fun hc => hc.2 hl)]
      rw [hrun]
      have hlook := lookupFiles_recordFiles ws task (produced task)
      simp only [run_analysis, hlook]
      rw [if_pos (⟨trivial, hp⟩ : True ∧ produced task ≠ [])]

/-- The output files one run of the epproc step would leave on disk, for
the witness below. -/
def producedEvt : String → List String :=
  fun _ => ["3278_0104860501_EPN_S003_ImagingEvts.ds"]

/-- A workspace whose discovered-file mapping already holds an event list
for epproc. -/
def ws0 : ObservationWorkspace :=
  ⟨[("epproc", ["0104860501_EPN_S003_ImagingEvts.ds"])]⟩

/-- Witness for C9 at the epproc step of a concrete workspace. -/
theorem pipeline_rerun_skipped_witness :
    lookupFiles ws0 "epproc" ≠ [] ∧
    run_analysis producedEvt ws0 "epproc" false = (0, ws0) ∧
    producedEvt "epproc" ≠ [] ∧
    (run_analysis producedEvt
      ((run_analysis producedEvt ws0 "epproc" false).2) "epproc"
      false).1 = 0 :=
  ⟨by decide,
   (pipeline_rerun_skipped producedEvt ws0 "epproc").1 (by decide),
   by decide,
   (pipeline_rerun_skipped producedEvt ws0 "epproc").2 (by decide)⟩

/-- C10: the legacy Wrapper entry point is observationally equivalent to
MyTask: for every task name and argument set, running the Wrapper is the
same invocation as running the MyTask it creates, and the legacy runtask
method is the same function as run. -/
theorem wrapper_equiv_mytask :
    ∀ (reg : Registry) (strict : Bool) (strategy : Strategy) (env : Env)
      (task : String) (args : ArgumentSet) (t : MyTask),
      Wrapper.run reg strict strategy env ⟨task, args⟩ =
        MyTask.run reg strict strategy env ⟨task, args⟩ ∧
      MyTask.runtask reg strict strategy env t =
        MyTask.run reg strict strategy env t :=
  fun _ _ _ _ _ _ _ => ⟨rfl, rfl⟩

end PySAS
